import Mathlib

/-
  Verification development for the UMC media-pipeline orchestrator.

  Shallow embedding of the task-lifecycle orchestrator (server.py), the
  media transform adapter (media_utils.py), the content-analysis adapter
  (video_Processor.py) and the object-storage adapter (storage_utils.py).

  External effects (object store, HTTP, the ffmpeg/whisper/genai tools)
  are modelled as oracle parameters of type Except String _, one per call
  site, so each embedded function is a pure function of its oracles.
-/

deriving instance DecidableEq for Except

namespace UMC

/-- A music candidate, mirroring the pydantic MusicItem model
(server.py lines 143-146): title, url, image. -/
structure MusicItem where
  title : String
  url : String
  image : String
deriving DecidableEq, Repr

/-- A task record, mirroring the dicts stored in the in-memory `tasks`
map (server.py line 19 and lines 121-126).  Fields absent from a given
Python dict are modelled as `none`. -/
structure Task where
  status : String
  video_object_name : Option String
  music_url : Option String
  final_video_url : Option String
  music_list : Option (List MusicItem)
  error : Option String
deriving DecidableEq, Repr

/-- The in-memory task table `tasks : Dict[str, dict]` (server.py line 19),
modelled as an association list with unique keys (a Python dict). -/
abbrev TaskTable := List (String × Task)

/-- Dictionary lookup `tasks[task_id]` / `task_id in tasks`: first binding
of the key wins, `none` models a missing key. -/
def lookupTask (tasks : TaskTable) (id : String) : Option Task :=
  match tasks with
  | [] => none
  | (k, t) :: rest => if k = id then some t else lookupTask rest id

/-- In-place mutation of the record stored under `id`
(e.g. `tasks[task_id]["status"] = ...`); a no-op on a missing key. -/
def updateTask : TaskTable → String → (Task → Task) → TaskTable
  | [], _, _ => []
  | (k, t) :: rest, id, f =>
    if k = id then (k, f t) :: updateTask rest id f
    else (k, t) :: updateTask rest id f

/-- The failure write-back performed by every background stage's `except`
branch: `tasks[task_id]["status"] = "failed"; tasks[task_id]["error"] = str(e)`
(server.py lines 85-86, 226-227, 301-302). -/
def setFailed (tasks : TaskTable) (id : String) (msg : String) : TaskTable :=
  updateTask tasks id (fun t => { t with status := "failed", error := some msg })

/-- The fastapi HTTPException value: a status code and a detail string. -/
structure HTTPException where
  status_code : Nat
  detail : String
deriving DecidableEq, Repr

/-- Python str(e) for a fastapi/starlette HTTPException:
"status_code: detail". -/
def strOfHTTPException (e : HTTPException) : String :=
  toString e.status_code ++ ": " ++ e.detail

/- ------------------------------------------------------------------
   Media transform adapter: mix_audio_video (media_utils.py 45-130)
   ------------------------------------------------------------------ -/

/-- The fade-out onset computation of mix_audio_video
(media_utils.py lines 64-66):
`fade_out_start = video_duration - 5.0; if fade_out_start < 0: fade_out_start = 0.0`.
Durations are modelled as exact rationals. -/
def fade_out_start (video_duration : ℚ) : ℚ :=
  let f := video_duration - 5
  if f < 0 then 0 else f

/-- Audio filter-graph terms as constructed by mix_audio_video via
ffmpeg-python.  `amix2 a b policy` is `ffmpeg.filter([a, b], amix,
inputs=2, duration=policy)` (the code always passes exactly two inputs);
the other constructors are the single-input filters used by the code. -/
inductive AStream where
  | source (name : String) (duration : ℚ)
  | volume (s : AStream) (vol : ℚ)
  | adelay (s : AStream) (delayMs : ℤ)
  | afade (s : AStream) (fadeType : String) (startTime fadeDuration : ℚ)
  | amix2 (a b : AStream) (durationPolicy : String)
  | atrim (s : AStream) (duration : ℚ)
deriving DecidableEq, Repr

/-- The processed-music stream built in media_utils.py lines 72-86:
volume scaling, optional adelay when start_time > 0 (int() truncation of
start_time * 1000 equals floor for the positive values that reach it),
a 3-second fade-in at start_time, and a 5-second fade-out starting at
fade_out_start. -/
def music_processed (musicDuration start_time audio_volume video_duration : ℚ) : AStream :=
  let m := AStream.volume (AStream.source "music" musicDuration) audio_volume
  let m := if start_time > 0 then AStream.adelay m (Rat.floor (start_time * 1000)) else m
  let m := AStream.afade m "in" start_time 3
  AStream.afade m "out" (fade_out_start video_duration) 5

/-- The mixed-audio stream built in media_utils.py lines 88-103.  When the
probe reports an audio stream, the code mixes the video's original audio
(first) with the processed music under duration=first; otherwise it trims
the processed music to the probed video duration.  The video's own audio
stream spans the video, so its source duration is the probed
video_duration. -/
def mixed_audio (has_audio : Bool) (musicDuration start_time audio_volume video_duration : ℚ) : AStream :=
  if has_audio then
    AStream.amix2 (AStream.source "video_audio" video_duration)
      (music_processed musicDuration start_time audio_volume video_duration) "first"
  else
    AStream.atrim (music_processed musicDuration start_time audio_volume video_duration)
      video_duration

/-- Duration semantics of the filter graph, following the documented
contracts of the ffmpeg filters the code uses: volume and afade preserve
duration, adelay lengthens by the delay, amix with duration=first keeps
the first input's duration (otherwise the longest), and atrim's duration
argument is a maximum — the output lasts min(input duration, cap), so a
stream shorter than the cap passes through at its own length. -/
def streamDuration : AStream → ℚ
  | .source _ d => d
  | .volume s _ => streamDuration s
  | .adelay s ms => streamDuration s + (ms : ℚ) / 1000
  | .afade s _ _ _ => streamDuration s
  | .amix2 a b policy => if policy = "first" then streamDuration a
      else max (streamDuration a) (streamDuration b)
  | .atrim s d => min (streamDuration s) d

/- ------------------------------------------------------------------
   Transcription adapter: transcribe_audio (media_utils.py 131-151)
   ------------------------------------------------------------------ -/

/-- transcribe_audio (media_utils.py lines 131-151): the whisper model
load, transcription and text extraction are one oracle; the `except`
branch turns any engine failure into the empty string.  The return type
String (rather than Except _ String) embeds that the function never
raises. -/
def transcribe_audio (engine : Except String String) : String :=
  match engine with
  | .ok transcript => transcript
  | .error _ => ""

/- ------------------------------------------------------------------
   Object storage adapter: generate_presigned_url (storage_utils.py 77-90,
   the second definition, which shadows the first at lines 59-75)
   ------------------------------------------------------------------ -/

/-- generate_presigned_url (storage_utils.py lines 77-90): the boto3
presign call is the oracle; on success the URL is returned, on any
exception the code prints and returns None.  The outer Except layer
distinguishes raising (error) from returning (ok); this function never
produces the error form. -/
def generate_presigned_url (client : Except String String) : Except String (Option String) :=
  match client with
  | .ok url => Except.ok (some url)
  | .error _ => Except.ok none

/-- Whether a modelled Python call outcome is a raised exception. -/
def raisesOut (r : Except String (Option String)) : Bool :=
  match r with
  | .error _ => true
  | .ok _ => false

/- ------------------------------------------------------------------
   Content analysis adapter: _analyze_with_file_api
   (video_Processor.py lines 205-229)
   ------------------------------------------------------------------ -/

/-- Remote file states reported by `video_file.state.name`:
"PROCESSING", "ACTIVE" (ready) or "FAILED". -/
inductive FileState where
  | processing
  | active
  | failed
deriving DecidableEq, Repr

/-- The polling loop `while video_file.state.name == "PROCESSING":
time.sleep(2); video_file = genai.get_file(...)` (lines 211-214).
`current` is the state right after upload and `polls` the successive
states returned by get_file; `none` models the loop never exiting. -/
def pollFile (current : FileState) : List FileState → Option FileState
  | [] => if current = FileState.processing then none else some current
  | s :: rest => if current = FileState.processing then pollFile s rest else some current

/-- Outcome of one run of the file-API path: the returned/raised value
and whether `genai.delete_file` was executed on the remote copy. -/
structure FileApiRun where
  result : Except String String
  remoteDeleted : Bool
deriving DecidableEq, Repr

/-- _analyze_with_file_api (video_Processor.py lines 205-229) after the
upload: poll until the remote state leaves PROCESSING; if the terminal
state is FAILED, raise ValueError (before the try/finally that deletes
the remote file); otherwise run generate_content (the `gen` oracle)
inside a try whose finally deletes the remote file.  `none` models the
unbounded polling loop never terminating. -/
def analyze_with_file_api (initial : FileState) (polls : List FileState)
    (gen : Except String String) : Option FileApiRun :=
  match pollFile initial polls with
  | none => none
  | some terminal =>
    if terminal = FileState.failed then
      some { result := Except.error "Video processing failed: FAILED", remoteDeleted := false }
    else
      match gen with
      | .ok resp => some { result := Except.ok resp, remoteDeleted := true }
      | .error e => some { result := Except.error e, remoteDeleted := true }

/- ------------------------------------------------------------------
   Upload endpoint: analyze_video (server.py lines 96-141)
   ------------------------------------------------------------------ -/

/-- The 100 MiB size ceiling MAX_FILE_SIZE = 100 * 1024 * 1024
(server.py line 34). -/
def MAX_FILE_SIZE : Nat := 100 * 1024 * 1024

/-- The JSON body returned by a successful upload (server.py 131-136). -/
structure UploadResponse where
  message : String
  filename : String
  task_id : String
  status : String
deriving DecidableEq, Repr

/-- An exception escaping the try block of analyze_video: either the
HTTPException(413) raised by the size check or a generic exception from
saving/uploading. -/
inductive UploadExc where
  | http (e : HTTPException)
  | generic (msg : String)
deriving DecidableEq, Repr

/-- Python str(e) on an exception escaping the try block. -/
def strOfUploadExc : UploadExc → String
  | .http e => strOfHTTPException e
  | .generic msg => msg

/-- The try block of analyze_video (server.py lines 105-136): after the
upload is saved to /tmp, its size is checked against MAX_FILE_SIZE (a
violation raises HTTPException(413)); then the file is uploaded to R2
(the `uploadOutcome` oracle), a fresh task with status "processing" is
appended to the table, and the analysis stage is scheduled in the
background. -/
def analyze_video_body (tasks : TaskTable) (fileSize : Nat)
    (uploadOutcome : Except String String) (task_id filename : String) :
    Except UploadExc (UploadResponse × TaskTable × List String) :=
  if fileSize > MAX_FILE_SIZE then
    Except.error (UploadExc.http { status_code := 413, detail := "File too large (max 100MB)" })
  else
    match uploadOutcome with
    | .error e => Except.error (UploadExc.generic e)
    | .ok video_object_name =>
      let task : Task :=
        { status := "processing", video_object_name := some video_object_name,
          music_url := none, final_video_url := none, music_list := none, error := none }
      Except.ok
        ({ message := "Video received and processing started", filename := filename,
           task_id := task_id, status := "processing" },
         tasks ++ [(task_id, task)], ["process_and_send_to_n8n"])

/-- analyze_video (server.py lines 96-141): the whole try block sits
under `except Exception as e: ... raise HTTPException(status_code=500,
detail=str(e))`.  HTTPException subclasses Exception, so the
HTTPException(413) raised inside the try is caught here too and
re-raised with status 500 and detail str(e) = "413: File too large (max
100MB)".  On an escaping exception no task was created, so the table is
returned unchanged.  The result is (response, table, scheduled
background jobs). -/
def analyze_video (tasks : TaskTable) (fileSize : Nat)
    (uploadOutcome : Except String String) (task_id filename : String) :
    Except HTTPException UploadResponse × TaskTable × List String :=
  match analyze_video_body tasks fileSize uploadOutcome task_id filename with
  | .ok (resp, tasks2, bg) => (Except.ok resp, tasks2, bg)
  | .error e => (Except.error { status_code := 500, detail := strOfUploadExc e }, tasks, [])

/- ------------------------------------------------------------------
   Analysis background stage: process_and_send_to_n8n
   (server.py lines 47-94)
   ------------------------------------------------------------------ -/

/-- process_and_send_to_n8n (server.py lines 47-94): downsample, then
transcribe (which never raises, see transcribe_audio), then analyze,
then POST to the webhook with raise_for_status; the `except` branch sets
the task to failed, the `finally` only removes temp files and never
touches the task table.  On the fully successful path no task field is
written.  Each fallible step is its own oracle. -/
def process_and_send_to_n8n (tasks : TaskTable) (task_id : String)
    (downsampleR : Except String Unit) (transcript : String)
    (analysisR : Except String String) (postR : Except String Unit) : TaskTable :=
  match downsampleR with
  | .error e => setFailed tasks task_id e
  | .ok _ =>
    match analysisR with
    | .error e => setFailed tasks task_id e
    | .ok _ =>
      match postR with
      | .error e => setFailed tasks task_id e
      | .ok _ => tasks

/- ------------------------------------------------------------------
   Music callback: receive_music (server.py lines 152-171)
   ------------------------------------------------------------------ -/

/-- Result of the music-callback endpoint: the HTTP outcome, the task
table afterwards, and the background jobs scheduled by the handler. -/
structure MusicCallbackResult where
  response : Except HTTPException String
  tasks : TaskTable
  scheduled : List String
deriving DecidableEq, Repr

/-- receive_music (server.py lines 152-171): 404 when task_id is not in
the table, 400 when the candidate list is empty; otherwise set status to
"music_ready" and store the candidate list.  The handler schedules no
background task (despite its docstring, it does not trigger mixing). -/
def receive_music (tasks : TaskTable) (task_id : String)
    (music_list : List MusicItem) : MusicCallbackResult :=
  match lookupTask tasks task_id with
  | none =>
    { response := Except.error { status_code := 404, detail := "Task not found" },
      tasks := tasks, scheduled := [] }
  | some _ =>
    if music_list.isEmpty then
      { response := Except.error { status_code := 400, detail := "No music generated" },
        tasks := tasks, scheduled := [] }
    else
      { response := Except.ok "Music received, waiting for selection",
        tasks := updateTask tasks task_id
          (fun t => { t with status := "music_ready", music_list := some music_list }),
        scheduled := [] }

/- ------------------------------------------------------------------
   Auto-mixing background stage: process_auto_mixing
   (server.py lines 179-232)
   ------------------------------------------------------------------ -/

/-- External invocations performed by the auto-mixing stage, in order. -/
inductive MixEvent where
  | downloadVideo (objectName path : String)
  | downloadMusic (url path : String)
  | mixInvoke (videoPath musicPath outputPath : String)
  | uploadResult (path objectName : String)
deriving DecidableEq, Repr

/-- The parameter names of def mix_audio_video(video_path, audio_path,
output_path, start_time=0.0, audio_volume=0.7) (media_utils.py line 45). -/
def mix_audio_video_param_names : List String :=
  ["video_path", "audio_path", "output_path", "start_time", "audio_volume"]

/-- The keyword arguments of the call
mix_audio_video(video_path, music_path, output_path, video_duration=10,
audio_volume=0.3) at server.py line 207. -/
def auto_mixing_mix_keywords : List String :=
  ["video_duration", "audio_volume"]

/-- Whether every keyword of the server.py line 207 call names a
parameter of mix_audio_video; when false, Python raises TypeError at the
call site before entering the function. -/
def auto_mixing_mix_call_binds : Bool :=
  auto_mixing_mix_keywords.all (fun k => mix_audio_video_param_names.contains k)

/-- Outcome of one run of the auto-mixing stage: the task table
afterwards and the external invocations made. -/
structure AutoMixRun where
  tasks : TaskTable
  events : List MixEvent
deriving DecidableEq, Repr

/-- process_auto_mixing (server.py lines 179-232): read the task's
video_object_name and music_url, download the video from R2 and the
music from its URL, call mix_audio_video (with the keyword
video_duration=10, which mix_audio_video does not accept, so when the
keywords do not bind the call raises TypeError and the except branch
records a failed task), upload the result as final/final_{task_id}.mp4
and set status "completed" with final_video_url.  A missing task id
makes the except branch itself raise KeyError, leaving the table
unchanged; a task whose video_object_name or music_url is None makes
the corresponding download call raise, which the except branch records
as a failure. -/
def process_auto_mixing (tasks : TaskTable) (task_id : String)
    (downloadVideoR : Except String Unit) (downloadMusicR : Except String Unit)
    (mixR : Except String Unit) (uploadR : Except String Unit) : AutoMixRun :=
  match lookupTask tasks task_id with
  | none => { tasks := tasks, events := [] }
  | some task =>
    match task.video_object_name, task.music_url with
    | some video_object_name, some music_url =>
      let video_path := "/tmp/temp_video_" ++ task_id ++ ".mp4"
      let music_path := "/tmp/temp_music_" ++ task_id ++ ".mp3"
      let ev1 := MixEvent.downloadVideo video_object_name video_path
      match downloadVideoR with
      | .error e => { tasks := setFailed tasks task_id e, events := [ev1] }
      | .ok _ =>
        let ev2 := MixEvent.downloadMusic music_url music_path
        match downloadMusicR with
        | .error e => { tasks := setFailed tasks task_id e, events := [ev1, ev2] }
        | .ok _ =>
          let output_path := "/tmp/final_" ++ task_id ++ ".mp4"
          if auto_mixing_mix_call_binds then
            let ev3 := MixEvent.mixInvoke video_path music_path output_path
            match mixR with
            | .error e => { tasks := setFailed tasks task_id e, events := [ev1, ev2, ev3] }
            | .ok _ =>
              let final_object_name := "final/final_" ++ task_id ++ ".mp4"
              let ev4 := MixEvent.uploadResult output_path final_object_name
              match uploadR with
              | .error e =>
                { tasks := setFailed tasks task_id e, events := [ev1, ev2, ev3, ev4] }
              | .ok _ =>
                let complete := fun (t : Task) =>
                  { t with status := "completed", final_video_url := some final_object_name }
                { tasks := updateTask tasks task_id complete,
                  events := [ev1, ev2, ev3, ev4] }
          else
            { tasks := setFailed tasks task_id
                "TypeError: mix_audio_video got an unexpected keyword argument video_duration",
              events := [ev1, ev2] }
    | _, _ =>
      { tasks := setFailed tasks task_id "download failed: missing reference", events := [] }

/- ------------------------------------------------------------------
   Concrete sample data used by witnesses and counterexamples
   ------------------------------------------------------------------ -/

/-- A task as created by a successful upload (server.py lines 121-126). -/
def sampleProcessingTask : Task :=
  { status := "processing", video_object_name := some "vid-obj.mp4", music_url := none,
    final_video_url := none, music_list := none, error := none }

/-- A task holding both a stored video reference and a music URL. -/
def sampleMusicReadyTask : Task :=
  { status := "music_ready", video_object_name := some "vid-obj.mp4",
    music_url := some "http://music.example/m.mp3",
    final_video_url := none, music_list := none, error := none }

/-- A concrete music candidate. -/
def sampleMusicItem : MusicItem :=
  { title := "Song A", url := "http://music.example/a.mp3",
    image := "http://music.example/a.jpg" }

/- ------------------------------------------------------------------
   Lemmas about the task table
   ------------------------------------------------------------------ -/

/-- Looking up the updated key after updateTask yields the mapped record. -/
theorem lookup_updateTask_self (tasks : TaskTable) (id : String) (f : Task → Task) :
    lookupTask (updateTask tasks id f) id = (lookupTask tasks id).map f := by
  induction tasks with
  | nil => rfl
  | cons p rest ih =>
    obtain ⟨k, t⟩ := p
    by_cases h : k = id
    · simp [updateTask, lookupTask, h]
    · simp [updateTask, lookupTask, h, ih]

/-- Looking up a different key after updateTask is unchanged. -/
theorem lookup_updateTask_other (tasks : TaskTable) (id id2 : String) (f : Task → Task)
    (h : id2 ≠ id) :
    lookupTask (updateTask tasks id f) id2 = lookupTask tasks id2 := by
  induction tasks with
  | nil => rfl
  | cons p rest ih =>
    obtain ⟨k, t⟩ := p
    by_cases hk : k = id
    · subst hk
      have hid : ¬(k = id2) := fun hh => h hh.symm
      simp [updateTask, lookupTask, hid, ih]
    · by_cases hk2 : k = id2
      · subst hk2
        simp [updateTask, lookupTask, hk]
      · simp [updateTask, lookupTask, hk, hk2, ih]

/- ------------------------------------------------------------------
   Claim theorems
   ------------------------------------------------------------------ -/

/-- C1: for an upload whose saved payload is one byte over the 100 MiB
ceiling, no task is created and nothing is scheduled, but the response
is HTTPException 500 (detail "413: File too large (max 100MB)"), not
413: the HTTPException(413) raised inside the try block is swallowed by
the blanket `except Exception` and re-raised with status 500. -/
theorem analyze_video_oversize_responds_500 :
    analyze_video [] (MAX_FILE_SIZE + 1) (Except.ok "obj") "tid1" "clip.mp4" =
      (Except.error { status_code := 500, detail := "413: File too large (max 100MB)" },
       [], []) := by
  rfl

/-- C2 counterexample: when polling ends in the remote FAILED state, the
file-API path raises ValueError before reaching the try/finally that
deletes the remote copy, so the remote file is not deleted — refuting
the claim that deletion happens on every outcome. -/
theorem analyze_with_file_api_failed_skips_delete :
    analyze_with_file_api FileState.failed [] (Except.ok "resp") =
      some { result := Except.error "Video processing failed: FAILED",
             remoteDeleted := false } := by
  rfl

/-- C2 (amended): once polling reaches a terminal remote state, the
remote copy is deleted on analysis success and on analysis exception
alike; but when the terminal state is FAILED, a ValueError is raised and
the remote copy is not deleted. -/
theorem analyze_with_file_api_cleanup (initial : FileState) (polls : List FileState)
    (gen : Except String String) (terminal : FileState)
    (h : pollFile initial polls = some terminal) :
    (terminal ≠ FileState.failed →
      analyze_with_file_api initial polls gen = some { result := gen, remoteDeleted := true }) ∧
    (terminal = FileState.failed →
      analyze_with_file_api initial polls gen =
        some { result := Except.error "Video processing failed: FAILED",
               remoteDeleted := false }) := by
  constructor
  · intro hne
    unfold analyze_with_file_api
    rw [h]
    simp [hne]
    cases gen <;> rfl
  · intro heq
    unfold analyze_with_file_api
    rw [h, heq]
    rfl

/-- C2 witness: a run whose polling passes through PROCESSING and ends
ACTIVE deletes the remote copy, instantiating the amended theorem. -/
theorem analyze_with_file_api_cleanup_witness :
    pollFile FileState.processing [FileState.active] = some FileState.active ∧
    ((FileState.active ≠ FileState.failed →
       analyze_with_file_api FileState.processing [FileState.active] (Except.ok "brief") =
         some { result := Except.ok "brief", remoteDeleted := true }) ∧
     (FileState.active = FileState.failed →
       analyze_with_file_api FileState.processing [FileState.active] (Except.ok "brief") =
         some { result := Except.error "Video processing failed: FAILED",
                remoteDeleted := false })) :=
  ⟨rfl, analyze_with_file_api_cleanup FileState.processing [FileState.active]
    (Except.ok "brief") FileState.active rfl⟩

/-- C3: the auto-mixing stage can never reach its success path.  The
call at server.py line 207 passes the keyword video_duration, which
mix_audio_video does not accept, so after downloading the video and the
music the call raises TypeError and the task is set to "failed" — even
when every external service succeeds.  The mix and upload are never
invoked and status never becomes "completed". -/
theorem process_auto_mixing_mix_call_typeerror :
    auto_mixing_mix_call_binds = false ∧
    process_auto_mixing [("t1", sampleMusicReadyTask)] "t1"
        (Except.ok ()) (Except.ok ()) (Except.ok ()) (Except.ok ()) =
      { tasks := [("t1",
          { status := "failed", video_object_name := some "vid-obj.mp4",
            music_url := some "http://music.example/m.mp3", final_video_url := none,
            music_list := none,
            error := some "TypeError: mix_audio_video got an unexpected keyword argument video_duration" })],
        events := [MixEvent.downloadVideo "vid-obj.mp4" "/tmp/temp_video_t1.mp4",
                   MixEvent.downloadMusic "http://music.example/m.mp3" "/tmp/temp_music_t1.mp3"] } := by
  exact ⟨rfl, rfl⟩

/-- C4: the mix operation computes the music fade-out onset as
max(0, video_duration - 5); in particular duration 3 gives onset 0 and
duration 30 gives onset 25. -/
theorem fade_out_start_spec (d : ℚ) (hd : 0 ≤ d) :
    fade_out_start d = max 0 (d - 5) ∧ fade_out_start 3 = 0 ∧ fade_out_start 30 = 25 := by
  refine ⟨?_, ?_, ?_⟩
  · show (if d - 5 < 0 then (0 : ℚ) else d - 5) = max 0 (d - 5)
    by_cases h : d - 5 < 0
    · rw [if_pos h, max_eq_left h.le]
    · rw [if_neg h, max_eq_right (le_of_not_lt h)]
  · show (if (3 : ℚ) - 5 < 0 then (0 : ℚ) else 3 - 5) = 0
    rw [if_pos (by norm_num : (3 : ℚ) - 5 < 0)]
  · show (if (30 : ℚ) - 5 < 0 then (0 : ℚ) else 30 - 5) = 25
    rw [if_neg (by norm_num : ¬((30 : ℚ) - 5 < 0))]
    norm_num

/-- C4 witness: the fade-out onset theorem instantiated at duration 7. -/
theorem fade_out_start_spec_witness :
    (0 : ℚ) ≤ 7 ∧
    (fade_out_start 7 = max 0 (7 - 5) ∧ fade_out_start 3 = 0 ∧ fade_out_start 30 = 25) :=
  ⟨by norm_num, fade_out_start_spec 7 (by norm_num)⟩

/-- C5 counterexample: mixing a 2-second music track into a 10-second
video with no audio stream yields output audio of duration 2, strictly
shorter than the video — atrim's duration argument only caps the
stream, so nothing pads short music up to the video's length, refuting
the claim that the output audio always lasts exactly the video's
duration. -/
theorem mixed_audio_short_music_counterexample :
    streamDuration (mixed_audio false 2 0 (3 / 10) 10) = 2 ∧
    streamDuration (mixed_audio false 2 0 (3 / 10) 10) < 10 := by
  constructor <;> norm_num [mixed_audio, music_processed, streamDuration, fade_out_start]

/-- C5 (amended): when the video has an audio stream the mix combines
the original audio (first) with the processed music under the
duration=first policy, so the output duration equals the video's
duration; when it has none, the output audio is the processed music
trimmed (atrim) to at most the video's duration — exactly the video's
duration whenever the processed music is at least as long as the video,
and the music's own shorter length otherwise. -/
theorem mixed_audio_duration_policy (md st av vd : ℚ) :
    mixed_audio true md st av vd =
      AStream.amix2 (AStream.source "video_audio" vd) (music_processed md st av vd) "first" ∧
    streamDuration (mixed_audio true md st av vd) = vd ∧
    mixed_audio false md st av vd =
      AStream.atrim (music_processed md st av vd) vd ∧
    streamDuration (mixed_audio false md st av vd) =
      min (streamDuration (music_processed md st av vd)) vd ∧
    (vd ≤ streamDuration (music_processed md st av vd) →
      streamDuration (mixed_audio false md st av vd) = vd) := by
  refine ⟨rfl, ?_, rfl, rfl, ?_⟩
  · simp [mixed_audio, streamDuration]
  · intro hle
    show min (streamDuration (music_processed md st av vd)) vd = vd
    exact min_eq_right hle

/-- C5 witness: with a 30-second music track, a 10-second audioless
video gets output audio of exactly 10 seconds, instantiating the
amended theorem and discharging its music-long-enough hypothesis. -/
theorem mixed_audio_duration_policy_witness :
    (10 : ℚ) ≤ streamDuration (music_processed 30 0 (3 / 10) 10) ∧
    streamDuration (mixed_audio false 30 0 (3 / 10) 10) = 10 :=
  ⟨by norm_num [music_processed, streamDuration, fade_out_start],
   (mixed_audio_duration_policy 30 0 (3 / 10) 10).2.2.2.2
     (by norm_num [music_processed, streamDuration, fade_out_start])⟩

/-- C6: the music callback responds 404 when the task id is unknown and
400 when the candidate list is empty; in both rejection cases the task
table — hence every field of every task — is left unchanged. -/
theorem receive_music_rejects (tasks : TaskTable) (task_id : String) (ml : List MusicItem)
    (h : lookupTask tasks task_id = none ∨ ml = []) :
    (receive_music tasks task_id ml).tasks = tasks ∧
    ((lookupTask tasks task_id = none ∧
        (receive_music tasks task_id ml).response =
          Except.error { status_code := 404, detail := "Task not found" }) ∨
     (lookupTask tasks task_id ≠ none ∧
        (receive_music tasks task_id ml).response =
          Except.error { status_code := 400, detail := "No music generated" })) := by
  cases hl : lookupTask tasks task_id with
  | none =>
    refine ⟨?_, Or.inl ⟨rfl, ?_⟩⟩
    · unfold receive_music
      rw [hl]
    · unfold receive_music
      rw [hl]
  | some t =>
    rcases h with h1 | h2
    · rw [hl] at h1
      exact absurd h1 (by simp)
    · subst h2
      refine ⟨?_, Or.inr ⟨by simp, ?_⟩⟩
      · unfold receive_music
        rw [hl]
        rfl
      · unfold receive_music
        rw [hl]
        rfl

/-- C6 witness: the rejection theorem instantiated at an unknown task id
on the empty table, and at a known task id with an empty candidate
list. -/
theorem receive_music_rejects_witness :
    ((lookupTask ([] : TaskTable) "t1" = none ∨ ([sampleMusicItem] : List MusicItem) = []) ∧
      ((receive_music [] "t1" [sampleMusicItem]).tasks = ([] : TaskTable) ∧
       ((lookupTask ([] : TaskTable) "t1" = none ∧
           (receive_music [] "t1" [sampleMusicItem]).response =
             Except.error { status_code := 404, detail := "Task not found" }) ∨
        (lookupTask ([] : TaskTable) "t1" ≠ none ∧
           (receive_music [] "t1" [sampleMusicItem]).response =
             Except.error { status_code := 400, detail := "No music generated" })))) ∧
    ((lookupTask [("t1", sampleProcessingTask)] "t1" = none ∨ ([] : List MusicItem) = []) ∧
      ((receive_music [("t1", sampleProcessingTask)] "t1" []).tasks =
          [("t1", sampleProcessingTask)] ∧
       ((lookupTask [("t1", sampleProcessingTask)] "t1" = none ∧
           (receive_music [("t1", sampleProcessingTask)] "t1" []).response =
             Except.error { status_code := 404, detail := "Task not found" }) ∨
        (lookupTask [("t1", sampleProcessingTask)] "t1" ≠ none ∧
           (receive_music [("t1", sampleProcessingTask)] "t1" []).response =
             Except.error { status_code := 400, detail := "No music generated" })))) :=
  ⟨⟨Or.inl rfl, receive_music_rejects [] "t1" [sampleMusicItem] (Or.inl rfl)⟩,
   ⟨Or.inr rfl, receive_music_rejects [("t1", sampleProcessingTask)] "t1" [] (Or.inr rfl)⟩⟩

/-- C7: on a known task id and a non-empty candidate list, the music
callback sets the task's status to "music_ready" and stores the
candidate list, leaves every other task untouched, schedules no
background stage, and acknowledges. -/
theorem receive_music_success (tasks : TaskTable) (task_id : String) (ml : List MusicItem)
    (t : Task) (id2 : String)
    (h1 : lookupTask tasks task_id = some t) (h2 : ml ≠ []) (h3 : id2 ≠ task_id) :
    (receive_music tasks task_id ml).scheduled = [] ∧
    (receive_music tasks task_id ml).response = Except.ok "Music received, waiting for selection" ∧
    lookupTask (receive_music tasks task_id ml).tasks task_id =
      some { t with status := "music_ready", music_list := some ml } ∧
    lookupTask (receive_music tasks task_id ml).tasks id2 = lookupTask tasks id2 := by
  have hne : ml.isEmpty = false := by
    cases ml with
    | nil => exact absurd rfl h2
    | cons a l => rfl
  unfold receive_music
  rw [h1, hne]
  refine ⟨rfl, rfl, ?_, ?_⟩
  · show lookupTask (updateTask tasks task_id _) task_id = _
    rw [lookup_updateTask_self, h1]
    rfl
  · show lookupTask (updateTask tasks task_id _) id2 = _
    exact lookup_updateTask_other tasks task_id id2 _ h3

/-- C7 witness: the success theorem instantiated on a one-task table
with one candidate. -/
theorem receive_music_success_witness :
    lookupTask [("t1", sampleProcessingTask)] "t1" = some sampleProcessingTask ∧
    ([sampleMusicItem] : List MusicItem) ≠ [] ∧
    "t2" ≠ "t1" ∧
    ((receive_music [("t1", sampleProcessingTask)] "t1" [sampleMusicItem]).scheduled = [] ∧
     (receive_music [("t1", sampleProcessingTask)] "t1" [sampleMusicItem]).response =
       Except.ok "Music received, waiting for selection" ∧
     lookupTask (receive_music [("t1", sampleProcessingTask)] "t1" [sampleMusicItem]).tasks "t1" =
       some { sampleProcessingTask with status := "music_ready", music_list := some [sampleMusicItem] } ∧
     lookupTask (receive_music [("t1", sampleProcessingTask)] "t1" [sampleMusicItem]).tasks "t2" =
       lookupTask [("t1", sampleProcessingTask)] "t2") :=
  ⟨rfl, by simp, by simp,
   receive_music_success [("t1", sampleProcessingTask)] "t1" [sampleMusicItem]
     sampleProcessingTask "t2" rfl (by simp) (by simp)⟩

/-- C8: the transcription adapter never propagates an engine failure:
its return type is a plain String, any engine exception yields the empty
string, and an engine success is returned verbatim. -/
theorem transcribe_audio_never_raises (msg t : String) :
    transcribe_audio (Except.error msg) = "" ∧ transcribe_audio (Except.ok t) = t :=
  ⟨rfl, rfl⟩

/-- C9 counterexample: on a failing object-store call the sign operation
returns the non-error value None instead of propagating — the outcome is
a normal return (raisesOut = false), refuting the claim that the failure
propagates to the caller as an error. -/
theorem generate_presigned_url_swallows_failure :
    generate_presigned_url (Except.error "SignatureDoesNotMatch") = Except.ok none ∧
    raisesOut (generate_presigned_url (Except.error "SignatureDoesNotMatch")) = false :=
  ⟨rfl, rfl⟩

/-- C9 (amended): on every failing object-store call the sign operation
swallows the exception and returns None (a normal, non-error return)
rather than propagating the failure. -/
theorem generate_presigned_url_returns_none_on_failure (e : String) :
    generate_presigned_url (Except.error e) = Except.ok none ∧
    raisesOut (generate_presigned_url (Except.error e)) = false :=
  ⟨rfl, rfl⟩

/-- C10: a run of the analysis background stage that completes without
exception leaves the task table — hence the task record created at
upload — exactly unchanged; and on any outcome the stage either leaves
the table unchanged or performs exactly the failure write-back (status
"failed" plus error), so it never advances a task beyond "processing"
to any other status. -/
theorem process_and_send_preserves_task (tasks : TaskTable) (task_id transcript analysis : String) :
    process_and_send_to_n8n tasks task_id (Except.ok ()) transcript
      (Except.ok analysis) (Except.ok ()) = tasks ∧
    (∀ (dR : Except String Unit) (aR : Except String String) (pR : Except String Unit),
      process_and_send_to_n8n tasks task_id dR transcript aR pR = tasks ∨
      ∃ e, process_and_send_to_n8n tasks task_id dR transcript aR pR =
        setFailed tasks task_id e) := by
  refine ⟨rfl, ?_⟩
  intro dR aR pR
  cases dR with
  | error e => exact Or.inr ⟨e, rfl⟩
  | ok u =>
    cases aR with
    | error e => exact Or.inr ⟨e, rfl⟩
    | ok a =>
      cases pR with
      | error e => exact Or.inr ⟨e, rfl⟩
      | ok v => exact Or.inl rfl

end UMC
